import Mathlib

/-!
Verification of the backend API client of the BLE wearable app
(`src/services/backendApi.ts`), as a shallow embedding in Lean 4.

The embedding covers:
* the WebSocket client with exponential-backoff auto-reconnect
  (`connectWebSocket` / `disconnectWebSocket`), modelled as a step function
  on an explicit state of the `BackendAPIService` instance fields
  (`reconnectAttempts`, `reconnectDelay`) together with the set of pending
  reconnect timers and the presence of a socket object (`this.ws`);
* the cooperative polling loop `startPolling`, modelled as a step function
  on the closure state (`isPolling`, in-flight fetch count, pending timers);
* the HTTP helper `fetchWithTimeout` and the calls built on it
  (`checkHealth`, `connectDevice`, `getStreamData`, `getPrediction`,
  `createSession`, `getSession`, `getProcessingLogs`, `getLayerDemo`),
  modelled over an abstract network behaviour;
* the WebSocket `onmessage` handler, over a model of JSON values with
  JavaScript truthiness.
-/

namespace BackendApi

/-! ## WebSocket reconnect machine

Instance fields of `BackendAPIService` relevant to reconnection
(`backendApi.ts`, lines 216-219), plus the number of reconnect timers
currently scheduled by `setTimeout` in the `onclose` handler and whether
`this.ws` currently holds a socket object. -/

/-- Source: `private maxReconnectAttempts = 5;` -/
def maxReconnectAttempts : Nat := 5

/-- Source: `private reconnectDelay = 1000; // Start with 1 second` -/
def initialReconnectDelay : Nat := 1000

/-- Source: `Math.min(this.reconnectDelay * 2, 30000)` cap. -/
def reconnectDelayCap : Nat := 30000

structure WSState where
  reconnectAttempts : Nat
  reconnectDelay : Nat
  /-- Number of reconnect callbacks scheduled by `setTimeout` in `onclose`
  that have not yet fired. The code keeps no handle to these timers and
  never calls `clearTimeout` on them. -/
  pendingTimers : Nat
  /-- Whether `this.ws` is non-null. -/
  wsPresent : Bool
  deriving Repr, DecidableEq

/-- Events driving the reconnect machine: a socket `close` event, a socket
`open` event, an explicit `disconnectWebSocket()` call, and the firing of a
previously scheduled reconnect timer. -/
inductive WSEvent where
  | closeEvt
  | openEvt
  | disconnectCall
  | timerFire
  deriving Repr, DecidableEq

/-- Observable output of one event: whether a scheduled reconnect timer
fired its callback (which invokes `connectWebSocket` unconditionally), and
the delay argument of any `setTimeout` issued by the `onclose` handler. -/
structure WSOut where
  fired : Bool
  scheduled : Option Nat
  deriving Repr, DecidableEq

/-- One step of the WebSocket client, translated from
`connectWebSocket` / `disconnectWebSocket` in `backendApi.ts`:

* `closeEvt` — the `onclose` handler (lines 421-436): if
  `reconnectAttempts < maxReconnectAttempts`, increment the counter,
  schedule a reconnect via `setTimeout(..., this.reconnectDelay)`, then set
  `reconnectDelay = Math.min(reconnectDelay * 2, 30000)`; otherwise do
  nothing.
* `openEvt` — the `onopen` handler (lines 399-403): reset
  `reconnectAttempts = 0` and `reconnectDelay = 1000`.
* `disconnectCall` — `disconnectWebSocket` (lines 446-452): if `this.ws`
  is non-null, set `reconnectAttempts = maxReconnectAttempts`, close the
  socket and null the field. Pending timers are not cancelled.
* `timerFire` — a scheduled reconnect callback runs (lines 428-431): it
  calls `this.connectWebSocket(...)` unconditionally, which assigns a new
  socket to `this.ws`. -/
def wsStep (s : WSState) : WSEvent → WSState × WSOut
  | .closeEvt =>
      if s.reconnectAttempts < maxReconnectAttempts then
        ({ s with
            reconnectAttempts := s.reconnectAttempts + 1,
            pendingTimers := s.pendingTimers + 1,
            reconnectDelay := min (s.reconnectDelay * 2) reconnectDelayCap },
         { fired := false, scheduled := some s.reconnectDelay })
      else
        (s, { fired := false, scheduled := none })
  | .openEvt =>
      ({ s with reconnectAttempts := 0, reconnectDelay := initialReconnectDelay },
       { fired := false, scheduled := none })
  | .disconnectCall =>
      if s.wsPresent then
        ({ s with reconnectAttempts := maxReconnectAttempts, wsPresent := false },
         { fired := false, scheduled := none })
      else
        (s, { fired := false, scheduled := none })
  | .timerFire =>
      if 0 < s.pendingTimers then
        ({ s with pendingTimers := s.pendingTimers - 1, wsPresent := true },
         { fired := true, scheduled := none })
      else
        (s, { fired := false, scheduled := none })

/-- State right after a fresh `connectWebSocket()` call on a new service
instance: counter and delay at their initial field values, a socket object
assigned, no reconnect timer pending. -/
def wsConnectInit : WSState :=
  { reconnectAttempts := 0, reconnectDelay := initialReconnectDelay,
    pendingTimers := 0, wsPresent := true }

structure WSRun where
  state : WSState
  /-- Delays of all reconnect timers scheduled during the run, in order. -/
  delays : List Nat
  /-- Number of reconnect callbacks that fired (each invokes
  `connectWebSocket`). -/
  firedCount : Nat
  deriving Repr, DecidableEq

/-- Run a sequence of events, accumulating scheduled reconnect delays and
fired reconnect callbacks. -/
def wsRun (s : WSState) : List WSEvent → WSRun
  | [] => { state := s, delays := [], firedCount := 0 }
  | e :: es =>
      let p := wsStep s e
      let r := wsRun p.1 es
      { state := r.state,
        delays :=
          match p.2.scheduled with
          | some d => d :: r.delays
          | none => r.delays,
        firedCount := (if p.2.fired then 1 else 0) + r.firedCount }

/-- A run in which every connection attempt fails: each scheduled reconnect
timer fires, calls `connectWebSocket`, and the new socket closes again
without ever opening. `n` is the number of close events. -/
def failingTrace : Nat → List WSEvent
  | 0 => []
  | n + 1 => .closeEvt :: .timerFire :: failingTrace n

/-! ## The polling loop `startPolling`

`startPolling` (`backendApi.ts`, lines 465-495) captures a closure flag
`isPolling`, defines an async `poll` that (1) returns immediately when
`isPolling` is false, (2) awaits one `getStreamData()` fetch, calling
`onData` on success and `onError` (when supplied) on failure, and
(3) when `isPolling` is still true, schedules the next round with
`setTimeout(poll, interval)`. It calls `poll()` once synchronously and
returns a stop closure that sets `isPolling = false`. -/

structure PollState where
  isPolling : Bool
  /-- Number of `getStreamData()` fetches currently in flight. -/
  inFlight : Nat
  /-- Delays of the `setTimeout(poll, interval)` timers currently pending. -/
  timers : List Nat
  deriving Repr, DecidableEq

/-- Events driving the polling loop: a pending `setTimeout(poll, ...)`
timer fires, an in-flight fetch settles (`ok = true` for success), or the
stop closure returned by `startPolling` is called. -/
inductive PollEvent where
  | timerTick
  | fetchDone (ok : Bool)
  | stopCall
  deriving Repr, DecidableEq

/-- Observable output of one polling step: whether a new fetch was issued,
and whether `onData` / `onError` were invoked. -/
structure PollOut where
  issued : Bool
  dataCalled : Bool
  errorCalled : Bool
  deriving Repr, DecidableEq

/-- State right after `startPolling` returns: `isPolling = true` was set,
and the synchronous initial `poll()` call has issued the first fetch
(no timer is pending yet; the next one is only set after this fetch
completes). -/
def pollInit : PollState :=
  { isPolling := true, inFlight := 1, timers := [] }

/-- One step of the polling loop, translated from the body of
`startPolling`. `interval` is the `interval` argument, `hasOnError`
whether an `onError` callback was supplied. Events that are not enabled in
the current state (a timer firing when none is pending, a fetch settling
when none is in flight) yield `none`. -/
def pollStep (interval : Nat) (hasOnError : Bool) (s : PollState) :
    PollEvent → Option (PollState × PollOut)
  | .timerTick =>
      match s.timers with
      | [] => none
      | _ :: rest =>
          if s.isPolling then
            some ({ s with timers := rest, inFlight := s.inFlight + 1 },
                  { issued := true, dataCalled := false, errorCalled := false })
          else
            some ({ s with timers := rest },
                  { issued := false, dataCalled := false, errorCalled := false })
  | .fetchDone ok =>
      match s.inFlight with
      | 0 => none
      | n + 1 =>
          some ({ s with
                   inFlight := n,
                   timers := if s.isPolling then s.timers ++ [interval] else s.timers },
                { issued := false, dataCalled := ok,
                  errorCalled := !ok && hasOnError })
  | .stopCall =>
      some ({ s with isPolling := false },
            { issued := false, dataCalled := false, errorCalled := false })

/-- Reachable states of the polling loop from `pollInit`. -/
inductive PollReach (interval : Nat) (hasOnError : Bool) : PollState → Prop
  | init : PollReach interval hasOnError pollInit
  | step {s s' : PollState} {e : PollEvent} {o : PollOut} :
      PollReach interval hasOnError s →
      pollStep interval hasOnError s e = some (s', o) →
      PollReach interval hasOnError s'

/-- Run a sequence of polling events, counting the fetches issued.
Fails (`none`) if any event is not enabled. -/
def pollRun (interval : Nat) (hasOnError : Bool) (s : PollState) :
    List PollEvent → Option (PollState × Nat)
  | [] => some (s, 0)
  | e :: es =>
      match pollStep interval hasOnError s e with
      | none => none
      | some (s', o) =>
          match pollRun interval hasOnError s' es with
          | none => none
          | some (s'', n) => some (s'', (if o.issued then 1 else 0) + n)

/-! ## JSON values and the `onmessage` handler -/

/-- Model of JavaScript values produced by `JSON.parse`. -/
inductive Json where
  | null : Json
  | bool : Bool → Json
  | num : Int → Json
  | str : String → Json
  | arr : List Json → Json
  | obj : List (String × Json) → Json
  deriving Repr

/-- Property lookup on a list of object fields. -/
def lookupField : List (String × Json) → String → Option Json
  | [], _ => none
  | (k, v) :: rest, key => if k = key then some v else lookupField rest key

/-- JavaScript property access `value.key`: `none` models `undefined`
(absent key, or access on a non-object). -/
def getField : Json → String → Option Json
  | .obj fields, key => lookupField fields key
  | _, _ => none

/-- JavaScript truthiness of a parsed JSON value: `null`, `false`, `0` and
the empty string are falsy; objects and arrays are always truthy. -/
def jsTruthy : Json → Bool
  | .null => false
  | .bool b => b
  | .num n => n != 0
  | .str s => !s.isEmpty
  | .arr _ => true
  | .obj _ => true

/-- The test `message.type === 'stream_data'` on the result of a property
access (`none` = `undefined`, never strictly equal to a string). -/
def isStreamDataTag : Option Json → Bool
  | some (.str t) => t == "stream_data"
  | _ => false

/-- Observable effect of one `onmessage` invocation: the arguments passed
to the `onMessage` data callback (in order), whether a parse error was
logged, and whether the handler closed the connection (it never does). -/
structure MsgOut where
  onMessageCalls : List Json
  parseErrorLogged : Bool
  closesConnection : Bool
  deriving Repr

/-- The `onmessage` handler (`backendApi.ts`, lines 405-414), over the
outcome of `JSON.parse(event.data)`: on a parse exception, log the error
and drop the message; otherwise, when `message.type === 'stream_data' &&
message.data`, call `onMessage(message.data)`; in every case the handler
leaves the connection open. -/
def onmessageHandler (parsed : Except String Json) : MsgOut :=
  match parsed with
  | .error _ =>
      { onMessageCalls := [], parseErrorLogged := true, closesConnection := false }
  | .ok message =>
      match getField message "data" with
      | some d =>
          if isStreamDataTag (getField message "type") && jsTruthy d then
            { onMessageCalls := [d], parseErrorLogged := false,
              closesConnection := false }
          else
            { onMessageCalls := [], parseErrorLogged := false,
              closesConnection := false }
      | none =>
          { onMessageCalls := [], parseErrorLogged := false,
            closesConnection := false }

/-! ## `fetchWithTimeout` and the HTTP calls built on it

`fetchWithTimeout` (`backendApi.ts`, lines 230-252) creates an
`AbortController`, starts `setTimeout(() => controller.abort(), this.timeout)`,
awaits `fetch(url, { signal })`, and clears the timer on both the success
and the failure path before returning or rethrowing. The network is
modelled abstractly: a request either settles (resolves or rejects) at
some time, or hangs forever. -/

/-- Source: `TIMEOUT: 10000, // 10 seconds` in `BACKEND_CONFIG`; copied
into `this.timeout` by the constructor. -/
def backendTimeout : Nat := 10000

/-- An HTTP response as seen by the service: status, status text, and the
outcome of `response.json()` (which may itself reject). -/
structure HttpResponse where
  status : Nat
  statusText : String
  jsonBody : Except String Json

/-- The whatwg `Response.ok` getter: status in the range 200-299. -/
def respOk (r : HttpResponse) : Bool :=
  200 ≤ r.status && r.status ≤ 299

/-- Abstract behaviour of one network request: either it settles at time
`t` (milliseconds after issue) with a response or a network-level error
such as a refused connection, or it never settles on its own. -/
inductive NetBehavior where
  | settles (t : Nat) (r : Except String HttpResponse)
  | hangs

/-- Errors with which the modelled `fetch` can reject: an `AbortError`
caused by the cancellation timer, or a network-level error. -/
inductive FetchError where
  | aborted
  | network (e : String)
  deriving Repr, DecidableEq

/-- The cancellation timer fires before the network call completes. -/
def timeoutWins : NetBehavior → Prop
  | .settles t _ => backendTimeout ≤ t
  | .hangs => True

instance : DecidablePred timeoutWins := by
  intro n
  cases n with
  | settles t r => exact inferInstanceAs (Decidable (backendTimeout ≤ t))
  | hangs => exact inferInstanceAs (Decidable True)

/-- Result of one `fetchWithTimeout` call: the value returned or the error
rethrown, the delay of the cancellation timer it started, whether
`clearTimeout` ran before returning, and whether the in-flight request was
aborted by the timer. -/
structure FetchResult where
  result : Except FetchError HttpResponse
  timerStarted : Nat
  timerCleared : Bool
  aborted : Bool

/-- `fetchWithTimeout`, translated from `backendApi.ts` lines 230-252: a
timer of `backendTimeout` ms is started; if the request settles first, the
timer is cleared and the response returned (or the rejection rethrown
after clearing the timer); if the timer fires first, `controller.abort()`
makes the fetch reject with an `AbortError`, which the catch branch
rethrows after clearing the (already fired) timer. -/
def fetchWithTimeout (net : NetBehavior) : FetchResult :=
  match net with
  | .settles t r =>
      if t < backendTimeout then
        match r with
        | .ok resp =>
            { result := .ok resp, timerStarted := backendTimeout,
              timerCleared := true, aborted := false }
        | .error e =>
            { result := .error (.network e), timerStarted := backendTimeout,
              timerCleared := true, aborted := false }
      else
        { result := .error .aborted, timerStarted := backendTimeout,
          timerCleared := true, aborted := true }
  | .hangs =>
      { result := .error .aborted, timerStarted := backendTimeout,
        timerCleared := true, aborted := true }

/-- `checkHealth` (`backendApi.ts`, lines 257-268): the whole body is
wrapped in try/catch; any exception (network error, timeout abort, or a
`response.json()` rejection) is caught, a warning is logged, and `null` is
returned; a non-ok response also returns `null`; only an ok response with
a parsable body returns the parsed `SystemStatus` JSON. The `Except`
result type records whether the call throws — it never does. -/
def checkHealth (net : NetBehavior) : Except FetchError (Option Json) :=
  match (fetchWithTimeout net).result with
  | .error _ => .ok none
  | .ok resp =>
      if respOk resp then
        match resp.jsonBody with
        | .ok v => .ok (some v)
        | .error _ => .ok none
      else .ok none

/-- Errors with which a one-shot API call can reject: a propagated
`fetchWithTimeout` rejection, the `Error(prefix + response.statusText)`
thrown on a non-ok response, or a `response.json()` rejection. -/
inductive CallError where
  | fetchErr (e : FetchError)
  | httpErr (message : String)
  | jsonErr (e : String)
  deriving Repr, DecidableEq

/-- The shared shape of the one-shot API methods (`connectDevice`,
`getStreamData`, `getPrediction`, `createSession`, `getSession`,
`getProcessingLogs`, `getLayerDemo`): one `fetchWithTimeout` call; a
non-ok response throws `new Error(errPrefix + response.statusText)`;
an ok response returns `await response.json()`. The second component
counts the requests issued — each method performs exactly one, with no
retry. -/
def oneShotRequest (errPre : String) (net : NetBehavior) :
    Except CallError Json × Nat :=
  match (fetchWithTimeout net).result with
  | .error e => (.error (.fetchErr e), 1)
  | .ok resp =>
      if respOk resp then
        match resp.jsonBody with
        | .ok v => (.ok v, 1)
        | .error e => (.error (.jsonErr e), 1)
      else
        (.error (.httpErr (errPre ++ resp.statusText)), 1)

/-- `connectDevice` (`backendApi.ts`, lines 273-293). -/
def connectDevice (net : NetBehavior) : Except CallError Json × Nat :=
  oneShotRequest "Connection failed: " net

/-- `getStreamData` (`backendApi.ts`, lines 298-306). -/
def getStreamData (net : NetBehavior) : Except CallError Json × Nat :=
  oneShotRequest "Stream data failed: " net

/-- `getPrediction` (`backendApi.ts`, lines 311-319). -/
def getPrediction (net : NetBehavior) : Except CallError Json × Nat :=
  oneShotRequest "Prediction failed: " net

/-- `createSession` (`backendApi.ts`, lines 324-343). -/
def createSession (net : NetBehavior) : Except CallError Json × Nat :=
  oneShotRequest "Session creation failed: " net

/-- `getSession` (`backendApi.ts`, lines 348-358). -/
def getSession (net : NetBehavior) : Except CallError Json × Nat :=
  oneShotRequest "Get session failed: " net

/-- `getProcessingLogs` (`backendApi.ts`, lines 363-373). -/
def getProcessingLogs (net : NetBehavior) : Except CallError Json × Nat :=
  oneShotRequest "Get logs failed: " net

/-- `getLayerDemo` (`backendApi.ts`, lines 378-386). -/
def getLayerDemo (net : NetBehavior) : Except CallError Json × Nat :=
  oneShotRequest "Layer demo failed: " net

/-- What claim C8 asserts of one one-shot call with error prefix
`errPrefix`: exactly one request per call (no retry); a response that
settles in time with a non-2xx status yields an error whose message is the
prefix followed by the HTTP status text; a 2xx response with a parsable
body yields the parsed JSON. -/
def oneShotRespects (errPre : String)
    (call : NetBehavior → Except CallError Json × Nat) : Prop :=
  ∀ net : NetBehavior,
    (call net).2 = 1 ∧
    (∀ (t : Nat) (resp : HttpResponse),
        net = .settles t (.ok resp) → t < backendTimeout → respOk resp = false →
        (call net).1 = .error (.httpErr (errPre ++ resp.statusText))) ∧
    (∀ (t : Nat) (resp : HttpResponse) (v : Json),
        net = .settles t (.ok resp) → t < backendTimeout → respOk resp = true →
        resp.jsonBody = .ok v →
        (call net).1 = .ok v)

/-! ## Theorems -/

/-- Unfolding lemma for `wsRun` on a cons. -/
lemma wsRun_cons (s : WSState) (e : WSEvent) (es : List WSEvent) :
    wsRun s (e :: es) =
      { state := (wsRun (wsStep s e).1 es).state,
        delays :=
          match (wsStep s e).2.scheduled with
          | some d => d :: (wsRun (wsStep s e).1 es).delays
          | none => (wsRun (wsStep s e).1 es).delays,
        firedCount :=
          (if (wsStep s e).2.fired then 1 else 0) +
            (wsRun (wsStep s e).1 es).firedCount } := rfl

/-- In any run without an `open` event, the number of reconnects scheduled
is bounded by the reconnect budget remaining in the starting state. -/
lemma wsRun_delays_le (tr : List WSEvent) :
    ∀ s : WSState, WSEvent.openEvt ∉ tr →
      (wsRun s tr).delays.length + min s.reconnectAttempts maxReconnectAttempts ≤
        maxReconnectAttempts := by
  induction tr with
  | nil =>
      intro s _
      simp [wsRun]
  | cons e es ih =>
      intro s hop
      have hop' : WSEvent.openEvt ∉ es := fun h => hop (List.mem_cons_of_mem _ h)
      have hne : e ≠ WSEvent.openEvt := fun h => hop (h ▸ List.mem_cons_self _ _)
      rw [wsRun_cons]
      cases e with
      | closeEvt =>
          by_cases hlt : s.reconnectAttempts < maxReconnectAttempts
          · have h := ih ({ s with
                reconnectAttempts := s.reconnectAttempts + 1,
                pendingTimers := s.pendingTimers + 1,
                reconnectDelay := min (s.reconnectDelay * 2) reconnectDelayCap }) hop'
            simp only [wsStep, if_pos hlt] at *
            simp only [List.length_cons]
            omega
          · have h := ih s hop'
            simp only [wsStep, if_neg hlt] at *
            omega
      | openEvt => exact absurd rfl hne
      | disconnectCall =>
          by_cases hws : s.wsPresent = true
          · have h := ih ({ s with
                reconnectAttempts := maxReconnectAttempts, wsPresent := false }) hop'
            simp only [wsStep, if_pos hws] at *
            omega
          · have h := ih s hop'
            simp only [wsStep, if_neg hws] at *
            omega
      | timerFire =>
          by_cases hp : 0 < s.pendingTimers
          · have h := ih ({ s with
                pendingTimers := s.pendingTimers - 1, wsPresent := true }) hop'
            simp only [wsStep, if_pos hp] at *
            omega
          · have h := ih s hop'
            simp only [wsStep, if_neg hp] at *
            omega

/-- C1: in every run of the WebSocket client in which connection attempts
keep failing, the reconnect delays used for the successive attempts are
1000, 2000, 4000, 8000 and 16000 ms — the k-th delay is the doubled
sequence `1000 * 2 ^ k` capped at the 30000 ms ceiling — the internal
delay value ends capped at 30000 ms, and no more than 5 reconnects are
ever scheduled (no 6th attempt), in the canonical failing run and in any
run without a successful `open`. -/
theorem wsReconnect_backoff_policy :
    ((wsRun wsConnectInit (failingTrace 8)).delays =
        [1000, 2000, 4000, 8000, 16000]) ∧
    (∀ i : Nat, i < maxReconnectAttempts →
        (wsRun wsConnectInit (failingTrace 8)).delays.getD i 0 =
          min (initialReconnectDelay * 2 ^ i) reconnectDelayCap) ∧
    ((wsRun wsConnectInit (failingTrace 8)).state.reconnectDelay =
        reconnectDelayCap) ∧
    (∀ tr : List WSEvent, WSEvent.openEvt ∉ tr →
        (wsRun wsConnectInit tr).delays.length ≤ maxReconnectAttempts) := by
  refine ⟨by decide, ?_, by decide, ?_⟩
  · intro i hi
    have hi5 : i < 5 := by simpa [maxReconnectAttempts] using hi
    interval_cases i <;> decide
  · intro tr hop
    have h := wsRun_delays_le tr wsConnectInit hop
    simpa [wsConnectInit, maxReconnectAttempts] using h

/-- Witness for `wsReconnect_backoff_policy` at concrete inputs. -/
theorem wsReconnect_backoff_policy_witness :
    ((wsRun wsConnectInit (failingTrace 8)).delays.getD 2 0 =
        min (initialReconnectDelay * 2 ^ 2) reconnectDelayCap) ∧
    ((wsRun wsConnectInit [WSEvent.closeEvt, WSEvent.closeEvt]).delays.length ≤
        maxReconnectAttempts) :=
  ⟨wsReconnect_backoff_policy.2.1 2 (by decide),
   wsReconnect_backoff_policy.2.2.2 [WSEvent.closeEvt, WSEvent.closeEvt]
     (by decide)⟩

/-- C2 counterexample: from a fresh connection, after one close event (which
schedules a reconnect timer) followed by an explicit `disconnectWebSocket()`
(which sets the attempt counter to the maximum and nulls the socket, but
cancels no timer), the already-scheduled timer still fires a reconnect
attempt: `connectWebSocket` is invoked once even though `disconnect()`
returned before the timer fired. -/
theorem wsDisconnect_pending_timer_fires :
    ((wsRun wsConnectInit [WSEvent.closeEvt, WSEvent.disconnectCall]).state.reconnectAttempts
        = maxReconnectAttempts) ∧
    ((wsRun wsConnectInit [WSEvent.closeEvt, WSEvent.disconnectCall]).state.wsPresent
        = false) ∧
    ((wsRun wsConnectInit [WSEvent.closeEvt, WSEvent.disconnectCall]).state.pendingTimers
        = 1) ∧
    ((wsRun wsConnectInit
        [WSEvent.closeEvt, WSEvent.disconnectCall, WSEvent.timerFire]).firedCount = 1) := by
  decide

/-- From a state whose attempt counter is at the maximum and with no
reconnect timer pending, no run without an `open` event ever fires or
schedules a reconnect. -/
lemma wsRun_after_max (tr : List WSEvent) :
    ∀ s : WSState, maxReconnectAttempts ≤ s.reconnectAttempts →
      s.pendingTimers = 0 → WSEvent.openEvt ∉ tr →
      (wsRun s tr).firedCount = 0 ∧ (wsRun s tr).delays = [] := by
  induction tr with
  | nil =>
      intro s _ _ _
      simp [wsRun]
  | cons e es ih =>
      intro s hmax hp hop
      have hop' : WSEvent.openEvt ∉ es := fun h => hop (List.mem_cons_of_mem _ h)
      have hne : e ≠ WSEvent.openEvt := fun h => hop (h ▸ List.mem_cons_self _ _)
      rw [wsRun_cons]
      cases e with
      | closeEvt =>
          have hnlt : ¬ s.reconnectAttempts < maxReconnectAttempts := by omega
          have h := ih s hmax hp hop'
          simp only [wsStep, if_neg hnlt]
          simpa using h
      | openEvt => exact absurd rfl hne
      | disconnectCall =>
          by_cases hws : s.wsPresent = true
          · have h := ih ({ s with
                reconnectAttempts := maxReconnectAttempts, wsPresent := false })
                (by simp [maxReconnectAttempts]) hp hop'
            simp only [wsStep, if_pos hws]
            simpa using h
          · have h := ih s hmax hp hop'
            simp only [wsStep, if_neg hws]
            simpa using h
      | timerFire =>
          have hnp : ¬ 0 < s.pendingTimers := by omega
          have h := ih s hmax hp hop'
          simp only [wsStep, if_neg hnp]
          simpa using h

/-- C2 (amended): `disconnectWebSocket()` sets the reconnect-attempt
counter to the maximum, closes and nulls the socket, and cancels no pending
timer; thereafter a close event schedules no new reconnect, and — provided
no reconnect timer was already pending when `disconnect()` was called — no
reconnect attempt ever fires in any subsequent run without an `open`
event. (A timer already scheduled before the `disconnect()` call is not
suppressed: see `wsDisconnect_pending_timer_fires`.) -/
theorem wsDisconnect_suppresses_new_reconnects :
    (∀ s : WSState, s.wsPresent = true →
        wsStep s .disconnectCall =
          ({ s with reconnectAttempts := maxReconnectAttempts, wsPresent := false },
           { fired := false, scheduled := none })) ∧
    (∀ s : WSState, maxReconnectAttempts ≤ s.reconnectAttempts →
        wsStep s .closeEvt = (s, { fired := false, scheduled := none })) ∧
    (∀ (s : WSState) (tr : List WSEvent),
        maxReconnectAttempts ≤ s.reconnectAttempts → s.pendingTimers = 0 →
        WSEvent.openEvt ∉ tr →
        (wsRun s tr).firedCount = 0 ∧ (wsRun s tr).delays = []) := by
  refine ⟨?_, ?_, ?_⟩
  · intro s hws
    simp [wsStep, hws]
  · intro s hmax
    have hnlt : ¬ s.reconnectAttempts < maxReconnectAttempts := by omega
    simp [wsStep, hnlt]
  · intro s tr hmax hp hop
    exact wsRun_after_max tr s hmax hp hop

/-- Witness for `wsDisconnect_suppresses_new_reconnects` at concrete
inputs. -/
theorem wsDisconnect_suppresses_new_reconnects_witness :
    (wsStep { reconnectAttempts := 2, reconnectDelay := 4000,
              pendingTimers := 0, wsPresent := true } .disconnectCall =
      ({ reconnectAttempts := maxReconnectAttempts, reconnectDelay := 4000,
         pendingTimers := 0, wsPresent := false },
       { fired := false, scheduled := none })) ∧
    ((wsRun { reconnectAttempts := 5, reconnectDelay := 30000,
              pendingTimers := 0, wsPresent := false }
        [WSEvent.closeEvt, WSEvent.closeEvt, WSEvent.timerFire]).firedCount = 0) :=
  ⟨wsDisconnect_suppresses_new_reconnects.1 _ rfl,
   (wsDisconnect_suppresses_new_reconnects.2.2 _
      [WSEvent.closeEvt, WSEvent.closeEvt, WSEvent.timerFire]
      (by decide) rfl (by decide)).1⟩

/-- Invariant of the polling loop: the in-flight fetches and the pending
next-round timers together never exceed one. -/
lemma pollReach_flight_inv (interval : Nat) (hErr : Bool) :
    ∀ s : PollState, PollReach interval hErr s →
      s.inFlight + s.timers.length ≤ 1 := by
  intro s h
  induction h with
  | init => simp [pollInit]
  | @step s s' e o _ hstep ih =>
      cases e with
      | timerTick =>
          rw [pollStep] at hstep
          split at hstep
          · exact absurd hstep (by simp)
          · split at hstep <;> rename_i heq _ <;>
              (cases hstep; simp_all; omega)
      | fetchDone ok =>
          rw [pollStep] at hstep
          split at hstep
          · exact absurd hstep (by simp)
          · rename_i n hfl
            cases hstep
            by_cases hpol : s.isPolling = true <;> simp_all <;> omega
      | stopCall =>
          rw [pollStep] at hstep
          cases hstep
          simpa using ih

/-- C3: the polling loop issues its first fetch immediately at start (one
fetch already in flight, no timer pending), maintains at most one
outstanding fetch in every reachable state, and only ever creates a new
timer when a fetch completes, with delay exactly `interval` — never on a
fixed-rate schedule. -/
theorem startPolling_single_flight :
    (pollInit.isPolling = true ∧ pollInit.inFlight = 1 ∧ pollInit.timers = []) ∧
    (∀ (interval : Nat) (hErr : Bool) (s : PollState),
        PollReach interval hErr s → s.inFlight ≤ 1) ∧
    (∀ (interval : Nat) (hErr : Bool) (s : PollState) (e : PollEvent)
        (s' : PollState) (o : PollOut),
        pollStep interval hErr s e = some (s', o) →
        s.timers.length < s'.timers.length →
        (∃ ok : Bool, e = PollEvent.fetchDone ok) ∧
          s'.timers = s.timers ++ [interval] ∧ s.isPolling = true) := by
  refine ⟨⟨rfl, rfl, rfl⟩, ?_, ?_⟩
  · intro interval hErr s h
    have := pollReach_flight_inv interval hErr s h
    omega
  · intro interval hErr s e s' o hstep hlen
    cases e with
    | timerTick =>
        rw [pollStep] at hstep
        split at hstep
        · exact absurd hstep (by simp)
        · split at hstep <;> rename_i heq _ <;>
            (cases hstep; simp_all)
    | fetchDone ok =>
        rw [pollStep] at hstep
        split at hstep
        · exact absurd hstep (by simp)
        · rename_i n hfl
          cases hstep
          by_cases hpol : s.isPolling = true
          · exact ⟨⟨ok, rfl⟩, by simp [hpol], hpol⟩
          · simp only [if_neg hpol] at hlen
            omega
    | stopCall =>
        rw [pollStep] at hstep
        cases hstep
        simp at hlen

/-- Witness for `startPolling_single_flight` at concrete inputs. -/
theorem startPolling_single_flight_witness :
    (pollInit.inFlight ≤ 1) ∧
    ((∃ ok : Bool, PollEvent.fetchDone true = PollEvent.fetchDone ok) ∧
      ({ isPolling := true, inFlight := 0, timers := [1000] } : PollState).timers =
        pollInit.timers ++ [1000] ∧ pollInit.isPolling = true) :=
  ⟨startPolling_single_flight.2.1 1000 true pollInit PollReach.init,
   startPolling_single_flight.2.2 1000 true pollInit (PollEvent.fetchDone true)
     { isPolling := true, inFlight := 0, timers := [1000] }
     { issued := false, dataCalled := true, errorCalled := false }
     (by decide) (by decide)⟩

/-- Once the stop flag is cleared, no run of the loop ever issues another
fetch. -/
lemma pollRun_stopped (tr : List PollEvent) :
    ∀ (interval : Nat) (hErr : Bool) (s : PollState), s.isPolling = false →
      ∀ r : PollState × Nat, pollRun interval hErr s tr = some r → r.2 = 0 := by
  induction tr with
  | nil =>
      intro interval hErr s _ r hr
      rw [pollRun] at hr
      injection hr with h
      rw [← h]
  | cons e es ih =>
      intro interval hErr s hpol r hr
      rw [pollRun] at hr
      cases hstep : pollStep interval hErr s e with
      | none => rw [hstep] at hr; exact absurd hr (by simp)
      | some p =>
          rw [hstep] at hr
          have hpres : p.1.isPolling = false ∧ p.2.issued = false := by
            cases e with
            | timerTick =>
                rw [pollStep] at hstep
                split at hstep
                · exact absurd hstep (by simp)
                · rw [if_neg (by simp [hpol] : ¬ s.isPolling = true)] at hstep
                  cases hstep
                  exact ⟨hpol, rfl⟩
            | fetchDone ok =>
                rw [pollStep] at hstep
                split at hstep
                · exact absurd hstep (by simp)
                · cases hstep
                  exact ⟨hpol, rfl⟩
            | stopCall =>
                rw [pollStep] at hstep
                cases hstep
                exact ⟨rfl, rfl⟩
          obtain ⟨p1, p2⟩ := hpres
          simp only [] at hr
          cases hrec : pollRun interval hErr p.1 es with
          | none =>
              rw [hrec] at hr
              exact absurd hr (by simp)
          | some r' =>
              rw [hrec] at hr
              have h2 := ih interval hErr p.1 p1 r' hrec
              simp only [Option.some.injEq] at hr
              rw [← hr]
              simp [p2, h2]

/-- C4: calling the stop closure clears the `isPolling` flag; a timer that
was already scheduled before the stop still fires, but the poll round
observes the cleared flag and issues no fetch; and from any stopped state,
no run of the loop ever issues a fetch again. -/
theorem stopPolling_no_further_fetch :
    (∀ (interval : Nat) (hErr : Bool) (s : PollState),
        pollStep interval hErr s .stopCall =
          some ({ s with isPolling := false },
                { issued := false, dataCalled := false, errorCalled := false })) ∧
    (∀ (interval : Nat) (hErr : Bool) (s : PollState) (d : Nat) (rest : List Nat),
        s.isPolling = false → s.timers = d :: rest →
        pollStep interval hErr s .timerTick =
          some ({ s with timers := rest },
                { issued := false, dataCalled := false, errorCalled := false })) ∧
    (∀ (interval : Nat) (hErr : Bool) (s : PollState) (tr : List PollEvent)
        (r : PollState × Nat),
        s.isPolling = false → pollRun interval hErr s tr = some r → r.2 = 0) := by
  refine ⟨?_, ?_, ?_⟩
  · intro interval hErr s
    rfl
  · intro interval hErr s d rest hpol ht
    rw [pollStep, ht]
    simp [hpol]
  · intro interval hErr s tr r hpol hr
    exact pollRun_stopped tr interval hErr s hpol r hr

/-- Witness for `stopPolling_no_further_fetch` at concrete inputs: a
stopped poller whose timer was scheduled before the stop advances past the
tick without issuing a fetch. -/
theorem stopPolling_no_further_fetch_witness :
    ((({ isPolling := false, inFlight := 0, timers := [] } : PollState),
        (0 : Nat)).2 = 0) :=
  stopPolling_no_further_fetch.2.2 50 false
    { isPolling := false, inFlight := 0, timers := [50] } [PollEvent.timerTick]
    ({ isPolling := false, inFlight := 0, timers := [] }, 0) rfl (by decide)

/-- C9: when a fetch of a running poll round fails, the error callback is
invoked exactly when one was supplied, polling is not terminated, and the
next fetch is still scheduled `interval` milliseconds after the
completion. -/
theorem polling_error_continues :
    ∀ (interval : Nat) (s : PollState) (n : Nat),
      s.isPolling = true → s.inFlight = n + 1 →
      (pollStep interval true s (.fetchDone false) =
          some ({ s with inFlight := n, timers := s.timers ++ [interval] },
                { issued := false, dataCalled := false, errorCalled := true })) ∧
      (pollStep interval false s (.fetchDone false) =
          some ({ s with inFlight := n, timers := s.timers ++ [interval] },
                { issued := false, dataCalled := false, errorCalled := false })) ∧
      ({ s with inFlight := n, timers := s.timers ++ [interval] } : PollState).isPolling = true := by
  intro interval s n hpol hfl
  refine ⟨?_, ?_, hpol⟩
  · rw [pollStep, hfl]
    simp [hpol]
  · rw [pollStep, hfl]
    simp [hpol]

/-- Witness for `polling_error_continues` at a concrete input. -/
theorem polling_error_continues_witness :
    pollStep 1000 true { isPolling := true, inFlight := 1, timers := [] }
        (.fetchDone false) =
      some ({ isPolling := true, inFlight := 0, timers := [] ++ [1000] },
            { issued := false, dataCalled := false, errorCalled := true }) :=
  (polling_error_continues 1000
    { isPolling := true, inFlight := 1, timers := [] } 0 rfl rfl).1

/-- C5: every request through `fetchWithTimeout` starts a cancellation
timer of `BACKEND_CONFIG.TIMEOUT` = 10000 ms; if the timer fires before the
network call completes, the in-flight request is aborted and the call fails
with the abort (timeout) error; and on every completion path the timer is
cleared. -/
theorem fetchWithTimeout_timeout_spec :
    ∀ net : NetBehavior,
      (fetchWithTimeout net).timerStarted = backendTimeout ∧
      backendTimeout = 10000 ∧
      (fetchWithTimeout net).timerCleared = true ∧
      (timeoutWins net →
        (fetchWithTimeout net).aborted = true ∧
        (fetchWithTimeout net).result = .error .aborted) ∧
      ((fetchWithTimeout net).aborted = true → timeoutWins net) := by
  intro net
  cases net with
  | settles t r =>
      by_cases h : t < backendTimeout
      · cases r with
        | ok resp =>
            refine ⟨?_, rfl, ?_, ?_, ?_⟩ <;>
              simp [fetchWithTimeout, timeoutWins, h]
        | error e =>
            refine ⟨?_, rfl, ?_, ?_, ?_⟩ <;>
              simp [fetchWithTimeout, timeoutWins, h]
      · refine ⟨?_, rfl, ?_, ?_, ?_⟩
        all_goals simp [fetchWithTimeout, timeoutWins, h]
        omega
  | hangs =>
      exact ⟨rfl, rfl, rfl, fun _ => ⟨rfl, rfl⟩, fun _ => trivial⟩

/-- Witness for `fetchWithTimeout_timeout_spec` at a hanging request. -/
theorem fetchWithTimeout_timeout_spec_witness :
    (fetchWithTimeout .hangs).aborted = true ∧
    (fetchWithTimeout .hangs).result = .error .aborted :=
  (fetchWithTimeout_timeout_spec .hangs).2.2.2.1 trivial

/-- C6: `checkHealth` never throws — for every outcome of the underlying
request it returns without an exception; it returns `null` on a non-2xx
response (such as HTTP 500), on a network error such as a refused
connection, and on a timeout; and it returns a parsed `SystemStatus` value
only when the request settled in time with a success-status response whose
body parsed. -/
theorem checkHealth_null_on_failure :
    (∀ net : NetBehavior, ∃ o : Option Json, checkHealth net = .ok o) ∧
    (∀ (t : Nat) (resp : HttpResponse), respOk resp = false →
        checkHealth (.settles t (.ok resp)) = .ok none) ∧
    (∀ (t : Nat) (e : String), checkHealth (.settles t (.error e)) = .ok none) ∧
    (checkHealth .hangs = .ok none) ∧
    (∀ (net : NetBehavior) (v : Json), checkHealth net = .ok (some v) →
        ∃ (t : Nat) (resp : HttpResponse),
          net = .settles t (.ok resp) ∧ t < backendTimeout ∧
            respOk resp = true ∧ resp.jsonBody = .ok v) := by
  refine ⟨?_, ?_, ?_, rfl, ?_⟩
  · intro net
    rw [checkHealth]
    cases hres : (fetchWithTimeout net).result with
    | error e => exact ⟨none, rfl⟩
    | ok resp =>
        by_cases hok : respOk resp = true
        · cases hj : resp.jsonBody with
          | ok v => exact ⟨some v, by simp [hok, hj]⟩
          | error e => exact ⟨none, by simp [hok, hj]⟩
        · exact ⟨none, by simp [hok]⟩
  · intro t resp hnok
    rw [checkHealth]
    by_cases h : t < backendTimeout
    · simp [fetchWithTimeout, h, hnok]
    · simp [fetchWithTimeout, h]
  · intro t e
    rw [checkHealth]
    by_cases h : t < backendTimeout
    · simp [fetchWithTimeout, h]
    · simp [fetchWithTimeout, h]
  · intro net v hv
    cases net with
    | settles t r =>
        by_cases h : t < backendTimeout
        · cases r with
          | ok resp =>
              by_cases hok : respOk resp = true
              · cases hj : resp.jsonBody with
                | ok w =>
                    refine ⟨t, resp, rfl, h, hok, ?_⟩
                    rw [checkHealth] at hv
                    simp [fetchWithTimeout, h, hok, hj] at hv
                    rw [hj, hv]
                | error e =>
                    rw [checkHealth] at hv
                    simp [fetchWithTimeout, h, hok, hj] at hv
              · rw [checkHealth] at hv
                simp [fetchWithTimeout, h, hok] at hv
          | error e =>
              rw [checkHealth] at hv
              simp [fetchWithTimeout, h] at hv
        · rw [checkHealth] at hv
          simp [fetchWithTimeout, h] at hv
    | hangs =>
        rw [checkHealth] at hv
        simp [fetchWithTimeout] at hv

/-- Witness for `checkHealth_null_on_failure` at concrete inputs: an HTTP
500 response and a refused connection both yield `null`. -/
theorem checkHealth_null_on_failure_witness :
    (checkHealth (.settles 5 (.ok
        { status := 500, statusText := "Internal Server Error",
          jsonBody := .error "no body" })) = .ok none) ∧
    (checkHealth (.settles 0 (.error "ECONNREFUSED")) = .ok none) :=
  ⟨checkHealth_null_on_failure.2.1 5
      { status := 500, statusText := "Internal Server Error",
        jsonBody := .error "no body" } rfl,
   checkHealth_null_on_failure.2.2.1 0 "ECONNREFUSED"⟩

/-- The shared body `oneShotRequest` satisfies the one-shot call contract
for any error-message prefix. -/
lemma oneShotRequest_respects (errPre : String) :
    oneShotRespects errPre (oneShotRequest errPre) := by
  intro net
  refine ⟨?_, ?_, ?_⟩
  · rw [oneShotRequest]
    cases hres : (fetchWithTimeout net).result with
    | error e => rfl
    | ok resp =>
        by_cases hok : respOk resp = true
        · cases hj : resp.jsonBody with
          | ok v => simp [hok, hj]
          | error e => simp [hok, hj]
        · simp [hok]
  · intro t resp hnet hlt hnok
    subst hnet
    rw [oneShotRequest]
    simp [fetchWithTimeout, hlt, hnok]
  · intro t resp v hnet hlt hok hj
    subst hnet
    rw [oneShotRequest]
    simp [fetchWithTimeout, hlt, hok, hj]

/-- C8: each one-shot call (`connectDevice`, `getStreamData`,
`getPrediction`, `createSession`, `getSession`, `getProcessingLogs`,
`getLayerDemo`) performs exactly one request — no retry; a non-2xx
response makes it raise an error whose message is the call's prefix
followed by the HTTP status text; and a 2xx response returns the parsed
JSON body. -/
theorem oneShot_calls_spec :
    oneShotRespects "Connection failed: " connectDevice ∧
    oneShotRespects "Stream data failed: " getStreamData ∧
    oneShotRespects "Prediction failed: " getPrediction ∧
    oneShotRespects "Session creation failed: " createSession ∧
    oneShotRespects "Get session failed: " getSession ∧
    oneShotRespects "Get logs failed: " getProcessingLogs ∧
    oneShotRespects "Layer demo failed: " getLayerDemo :=
  ⟨oneShotRequest_respects _, oneShotRequest_respects _,
   oneShotRequest_respects _, oneShotRequest_respects _,
   oneShotRequest_respects _, oneShotRequest_respects _,
   oneShotRequest_respects _⟩

/-- Witness for `oneShot_calls_spec` at a concrete 500 response. -/
theorem oneShot_calls_spec_witness :
    (connectDevice (.settles 3 (.ok
        { status := 500, statusText := "Internal Server Error",
          jsonBody := .error "e" }))).1 =
      .error (.httpErr ("Connection failed: " ++ "Internal Server Error")) :=
  (oneShot_calls_spec.1 _).2.1 3
    { status := 500, statusText := "Internal Server Error",
      jsonBody := .error "e" } rfl (by decide) (by decide)

/-- C7 counterexample: the message `{"type":"stream_data"}` carries the
stream-data discriminator tag, yet the handler invokes the data callback
zero times, not once — the tag alone does not trigger dispatch, because
the guard also requires a truthy `message.data`. -/
theorem onmessage_tag_alone_no_dispatch :
    isStreamDataTag
        (getField (Json.obj [("type", Json.str "stream_data")]) "type") = true ∧
    (onmessageHandler
        (.ok (Json.obj [("type", Json.str "stream_data")]))).onMessageCalls.length
      ≠ 1 := by
  exact ⟨rfl, by decide⟩

/-- C7 (amended): for every WebSocket message received while connected,
the payload is parsed as JSON; if the parsed message has the discriminator
`type == "stream_data"` and a truthy `data` field, the data callback is
invoked exactly once with the decoded `data` object; any other tag (such
as `{"type":"ping"}`) invokes no callback; malformed JSON is logged and
dropped; and in every case the connection stays open. -/
theorem onmessage_dispatch :
    (∀ (msg d : Json), getField msg "data" = some d → jsTruthy d = true →
        isStreamDataTag (getField msg "type") = true →
        (onmessageHandler (.ok msg)).onMessageCalls = [d]) ∧
    (∀ msg : Json, isStreamDataTag (getField msg "type") = false →
        (onmessageHandler (.ok msg)).onMessageCalls = []) ∧
    (∀ e : String, onmessageHandler (.error e) =
        { onMessageCalls := [], parseErrorLogged := true,
          closesConnection := false }) ∧
    (onmessageHandler (.ok (Json.obj [("type", Json.str "ping")])) =
        { onMessageCalls := [], parseErrorLogged := false,
          closesConnection := false }) ∧
    (∀ p : Except String Json, (onmessageHandler p).closesConnection = false) := by
  refine ⟨?_, ?_, fun e => rfl, rfl, ?_⟩
  · intro msg d hd htruthy htag
    rw [onmessageHandler, hd]
    simp [htag, htruthy]
  · intro msg htag
    rw [onmessageHandler]
    cases hd : getField msg "data" with
    | none => rfl
    | some d => simp [htag]
  · intro p
    cases p with
    | error e => rfl
    | ok msg =>
        rw [onmessageHandler]
        cases hd : getField msg "data" with
        | none => rfl
        | some d =>
            by_cases hc : isStreamDataTag (getField msg "type") && jsTruthy d
            · simp [hc]
            · simp [hc]

/-- Witness for `onmessage_dispatch` at a concrete stream-data message. -/
theorem onmessage_dispatch_witness :
    (onmessageHandler (.ok (Json.obj
        [("type", Json.str "stream_data"),
         ("data", Json.obj [("heart_rate", Json.num 72)])]))).onMessageCalls =
      [Json.obj [("heart_rate", Json.num 72)]] :=
  onmessage_dispatch.1
    (Json.obj [("type", Json.str "stream_data"),
               ("data", Json.obj [("heart_rate", Json.num 72)])])
    (Json.obj [("heart_rate", Json.num 72)]) rfl rfl rfl

/-- C10: a message whose `data` field is absent, or whose `data` field is
falsy, never invokes the data callback, whatever its `type` tag —
dispatch requires both the `stream_data` discriminator and a truthy data
payload. In particular `{"type":"stream_data"}` and
`{"type":"stream_data","data":null}` invoke no callback. -/
theorem onmessage_requires_truthy_data :
    (∀ msg : Json, getField msg "data" = none →
        (onmessageHandler (.ok msg)).onMessageCalls = []) ∧
    (∀ (msg d : Json), getField msg "data" = some d → jsTruthy d = false →
        (onmessageHandler (.ok msg)).onMessageCalls = []) ∧
    ((onmessageHandler
        (.ok (Json.obj [("type", Json.str "stream_data")]))).onMessageCalls = []) ∧
    ((onmessageHandler
        (.ok (Json.obj [("type", Json.str "stream_data"),
                        ("data", Json.null)]))).onMessageCalls = []) := by
  refine ⟨?_, ?_, rfl, rfl⟩
  · intro msg hd
    rw [onmessageHandler, hd]
  · intro msg d hd hfalsy
    rw [onmessageHandler, hd]
    simp [hfalsy]

/-- Witness for `onmessage_requires_truthy_data` at concrete messages. -/
theorem onmessage_requires_truthy_data_witness :
    ((onmessageHandler
        (.ok (Json.obj [("type", Json.str "stream_data"),
                        ("tag", Json.num 1)]))).onMessageCalls = []) ∧
    ((onmessageHandler
        (.ok (Json.obj [("type", Json.str "stream_data"),
                        ("data", Json.num 0)]))).onMessageCalls = []) :=
  ⟨onmessage_requires_truthy_data.1
      (Json.obj [("type", Json.str "stream_data"), ("tag", Json.num 1)]) rfl,
   onmessage_requires_truthy_data.2.1
      (Json.obj [("type", Json.str "stream_data"), ("data", Json.num 0)])
      (Json.num 0) rfl rfl⟩

end BackendApi
